import Mathlib

set_option linter.unusedVariables false

/-!
Shallow embedding of the CMORPH daily-precipitation ingest module
(src/ingest_cmorph_daily_complete.py).  The Python runtime behaviour that
the module exercises — datetime arithmetic, numpy array operations, string
slicing, int and float literal parsing, dictionary key lookup — is
modelled explicitly.  Each definition carries a comment pointing to the
source lines it embeds.  Numeric grid values are modelled as rationals;
the 32-bit byte-swap, whose bit-level action never influences the
properties below, is abstracted as a function parameter that every
theorem quantifies over.
-/

deriving instance DecidableEq for Except

/-- Python exception classes that the embedded code can raise. -/
inductive PyErr where
  | valueError
  | typeError
  | indexError
  | keyError
  | ioError
  | attributeError
deriving Repr, DecidableEq

/-- A Python datetime restricted to its date fields; the module only ever
builds midnight datetimes. -/
structure PyDate where
  year : Int
  month : Int
  day : Int
deriving Repr, DecidableEq

/-- Source lines 27-28: days of each calendar month for non-leap years. -/
def MONTH_DAYS_NONLEAP : List Int := [31, 28, 31, 30, 31, 30, 31, 31, 30, 31, 30, 31]

/-- Source lines 27-28: days of each calendar month for leap years. -/
def MONTH_DAYS_LEAP : List Int := [31, 29, 31, 30, 31, 30, 31, 31, 30, 31, 30, 31]

/-- Gregorian leap-year rule, as in calendar.isleap. -/
def isLeap (y : Int) : Bool := (y % 4 == 0 && y % 100 != 0) || y % 400 == 0

/-- Number of days of month m (1-12) in year y. -/
def daysInMonth (y m : Int) : Int :=
  (if isLeap y then MONTH_DAYS_LEAP else MONTH_DAYS_NONLEAP).getD (m - 1).toNat 0

/-- Python datetime(year, month, day): validates the calendar date and the
year range 1..9999, raising ValueError otherwise. -/
def pyDatetime (y m d : Int) : Except PyErr PyDate :=
  if 1 ≤ y ∧ y ≤ 9999 ∧ 1 ≤ m ∧ m ≤ 12 ∧ 1 ≤ d ∧ d ≤ daysInMonth y m then
    Except.ok ⟨y, m, d⟩
  else Except.error PyErr.valueError

/-- Day number of a proleptic Gregorian date (day 0 at 1970-01-01),
used to give datetime differences their day counts. -/
def daysFromCivil (y m d : Int) : Int :=
  let y2 := if m ≤ 2 then y - 1 else y
  let era := Int.fdiv y2 400
  let yoe := y2 - era * 400
  let mp := (m + 9) % 12
  let doy := Int.fdiv (153 * mp + 2) 5 + d - 1
  let doe := yoe * 365 + Int.fdiv yoe 4 - Int.fdiv yoe 100 + doy
  era * 146097 + doe - 719468

/-- Inverse of daysFromCivil. -/
def civilFromDays (z0 : Int) : PyDate :=
  let z := z0 + 719468
  let era := Int.fdiv z 146097
  let doe := z - era * 146097
  let yoe := Int.fdiv (doe - Int.fdiv doe 1460 + Int.fdiv doe 36524 - Int.fdiv doe 146096) 365
  let y := yoe + era * 400
  let doy := doe - (365 * yoe + Int.fdiv yoe 4 - Int.fdiv yoe 100)
  let mp := Int.fdiv (5 * doy + 2) 153
  let d := doy - Int.fdiv (153 * mp + 2) 5 + 1
  let m := mp + (if mp < 10 then 3 else -9)
  ⟨(if m ≤ 2 then y + 1 else y), m, d⟩

/-- Day number of a PyDate value. -/
def PyDate.toDays (a : PyDate) : Int := daysFromCivil a.year a.month a.day

/-- Python values that flow through the arithmetic of compute_days:
ints, datetimes and timedeltas. -/
inductive PyVal where
  | int (n : Int)
  | dt (d : PyDate)
  | td (days : Int)
deriving Repr, DecidableEq

/-- Python binary subtraction on the value kinds above: int minus int and
timedelta minus timedelta stay in kind, datetime minus datetime gives a
timedelta, datetime minus timedelta shifts the date; every other pairing
— in particular datetime minus int — raises TypeError. -/
def pySub : PyVal → PyVal → Except PyErr PyVal
  | PyVal.int a, PyVal.int b => Except.ok (PyVal.int (a - b))
  | PyVal.dt a, PyVal.dt b => Except.ok (PyVal.td (a.toDays - b.toDays))
  | PyVal.dt a, PyVal.td k => Except.ok (PyVal.dt (civilFromDays (a.toDays - k)))
  | PyVal.td a, PyVal.td b => Except.ok (PyVal.td (a - b))
  | _, _ => Except.error PyErr.typeError

/-- Python binary addition on the same value kinds; datetime plus int
raises TypeError. -/
def pyAdd : PyVal → PyVal → Except PyErr PyVal
  | PyVal.int a, PyVal.int b => Except.ok (PyVal.int (a + b))
  | PyVal.dt a, PyVal.td k => Except.ok (PyVal.dt (civilFromDays (a.toDays + k)))
  | PyVal.td k, PyVal.dt a => Except.ok (PyVal.dt (civilFromDays (a.toDays + k)))
  | PyVal.td a, PyVal.td b => Except.ok (PyVal.td (a + b))
  | _, _ => Except.error PyErr.typeError

/-- Reading the day attribute of a value; only datetimes have one. -/
def pyDayAttr : PyVal → Except PyErr Int
  | PyVal.dt a => Except.ok a.day
  | _ => Except.error PyErr.attributeError

/-- Reading the days attribute of a value; only timedeltas have one. -/
def pyDaysAttr : PyVal → Except PyErr Int
  | PyVal.td k => Except.ok k
  | _ => Except.error PyErr.attributeError

/-- Coercion performed when a value is stored into an int ndarray slot:
anything other than an int raises TypeError. -/
def pyAsInt : PyVal → Except PyErr Int
  | PyVal.int n => Except.ok n
  | _ => Except.error PyErr.typeError

/-- Source lines 161-196, the time-axis generator (source name has a
leading underscore).  Line 179 validates the year order; line 183 binds
data_day_initial to the day attribute of datetime(year_initial, 1, 1),
which is the int 1; line 184 subtracts that int from
datetime(year_final, 12, 31); line 190 allocates the int array (np.empty
raises ValueError on a negative size); line 194 adds an int to a datetime
and stores the result into the int array.  The function performs no file
or dataset input or output. -/
def compute_days (year_initial year_final year_since : Int) : Except PyErr (List Int) :=
  if year_initial < year_since then Except.error PyErr.valueError
  else do
    let dtInitial ← pyDatetime year_initial 1 1
    let data_day_initial ← pyDayAttr (PyVal.dt dtInitial)
    let dtFinal ← pyDatetime year_final 12 31
    let diff ← pySub (PyVal.dt dtFinal) (PyVal.int data_day_initial)
    let total_days ← pyDaysAttr diff
    let unitsStart ← pyDatetime year_since 1 1
    let units_day_start := PyVal.dt unitsStart
    if total_days < 0 then Except.error PyErr.valueError
    else
      (List.range total_days.toNat).mapM (fun i => do
        let v ← pyAdd units_day_start (PyVal.int (Int.ofNat i))
        pyAsInt v)

/-- Accumulating worker for whitespace tokenisation. -/
def wordsAux : List Char → List Char → List String
  | [], acc => if acc.isEmpty then [] else [String.mk acc.reverse]
  | c :: rest, acc =>
    if c.isWhitespace then
      if acc.isEmpty then wordsAux rest []
      else String.mk acc.reverse :: wordsAux rest []
    else wordsAux rest (c :: acc)

/-- Python str.split() with no separator: split on whitespace runs and
drop empty pieces. -/
def pyWords (line : String) : List String :=
  wordsAux line.toList []

/-- Strip leading and trailing whitespace from a character list, as
str.strip does before int() and float() parse a literal. -/
def trimChars (cs : List Char) : List Char :=
  ((cs.dropWhile Char.isWhitespace).reverse.dropWhile Char.isWhitespace).reverse

/-- Python list indexing words[i], raising IndexError when out of range. -/
def listGet {α : Type} (xs : List α) (i : Nat) : Except PyErr α :=
  match xs.get? i with
  | some x => Except.ok x
  | none => Except.error PyErr.indexError

/-- Python string slicing s[a:b] with negative indices counted from the
end and both bounds clamped into range. -/
def pySlice (s : String) (a b : Int) : String :=
  let n : Int := s.length
  let i := if a < 0 then n + a else a
  let j := if b < 0 then n + b else b
  let i2 := min (max i 0).toNat s.length
  let j2 := min (max j 0).toNat s.length
  String.mk ((s.toList.drop i2).take (j2 - i2))

/-- Value of a run of decimal digit characters. -/
def digitsVal (cs : List Char) : Nat :=
  cs.foldl (fun a c => a * 10 + (c.toNat - 48)) 0

/-- Python int() applied to a string: surrounding whitespace, an optional
sign, then at least one digit (the underscore digit separators int()
also allows never occur in the inputs exercised here). -/
def pyIntParse (s : String) : Except PyErr Int :=
  match trimChars s.toList with
  | '-' :: rest =>
    if rest ≠ [] ∧ rest.all Char.isDigit then Except.ok (-(digitsVal rest : Int))
    else Except.error PyErr.valueError
  | '+' :: rest =>
    if rest ≠ [] ∧ rest.all Char.isDigit then Except.ok ((digitsVal rest : Int))
    else Except.error PyErr.valueError
  | cs =>
    if cs ≠ [] ∧ cs.all Char.isDigit then Except.ok ((digitsVal cs : Int))
    else Except.error PyErr.valueError

/-- Unsigned decimal literal with an optional single decimal point, as a
rational. -/
def decimalVal (cs : List Char) : Option ℚ :=
  match cs.span (fun c => c ≠ '.') with
  | (intPart, []) =>
    if intPart ≠ [] ∧ intPart.all Char.isDigit then some ((digitsVal intPart : ℚ))
    else none
  | (intPart, _ :: fracPart) =>
    if (intPart ≠ [] ∨ fracPart ≠ []) ∧ intPart.all Char.isDigit ∧ fracPart.all Char.isDigit then
      some ((digitsVal intPart : ℚ) + (digitsVal fracPart : ℚ) / ((10 : ℚ) ^ fracPart.length))
    else none

/-- Python float() on the finite decimal literals a GrADS descriptor uses:
optional sign, digits with an optional decimal point.  The exponent,
infinity and nan spellings float() also accepts are not reachable from
the inputs exercised here and are omitted. -/
def pyFloat (s : String) : Except PyErr ℚ :=
  match trimChars s.toList with
  | '-' :: rest =>
    match decimalVal rest with
    | some q => Except.ok (-q)
    | none => Except.error PyErr.valueError
  | '+' :: rest =>
    match decimalVal rest with
    | some q => Except.ok q
    | none => Except.error PyErr.valueError
  | cs =>
    match decimalVal cs with
    | some q => Except.ok q
    | none => Except.error PyErr.valueError

/-- Lowercase three-letter month abbreviations recognised by strptime. -/
def monthAbbrevs : List String :=
  ["jan", "feb", "mar", "apr", "may", "jun", "jul", "aug", "sep", "oct", "nov", "dec"]

/-- Python datetime.strptime(s, d-b-Y format) as used at source line 342:
one or two day digits, a case-insensitive three-letter month
abbreviation, exactly four year digits, and the resulting calendar date
must be valid. -/
def pyStrptimeDbY (s : String) : Except PyErr PyDate :=
  let cs := s.toList
  let ds := (cs.takeWhile Char.isDigit).take 2
  if ds.isEmpty then Except.error PyErr.valueError
  else
    let rest1 := cs.drop ds.length
    let mon := String.mk ((rest1.take 3).map Char.toLower)
    match monthAbbrevs.findIdx? (fun a => a = mon) with
    | none => Except.error PyErr.valueError
    | some mi =>
      let rest2 := rest1.drop 3
      if rest2.length = 4 ∧ rest2.all Char.isDigit then
        pyDatetime (digitsVal rest2 : Int) ((mi : Int) + 1) (digitsVal ds : Int)
      else Except.error PyErr.valueError

/-- Source lines 327-353: the dictionary built by read_description (source
name has a leading underscore).  Each key of the Python dict becomes an
Option field; a key never assigned is none, and reading it through
dictGet raises KeyError exactly as a missing dict key does. -/
structure DataDict where
  undef : Option ℚ := none
  xdef_count : Option Int := none
  xdef_start : Option ℚ := none
  xdef_increment : Option ℚ := none
  ydef_count : Option Int := none
  ydef_start : Option ℚ := none
  ydef_increment : Option ℚ := none
  start_date : Option PyDate := none
  little_endian : Option Bool := none
  variable_description : Option String := none
  title : Option String := none
deriving Repr, DecidableEq

/-- Python dictionary access data_desc[key], raising KeyError for a key
that was never stored. -/
def dictGet {α : Type} : Option α → Except PyErr α
  | some a => Except.ok a
  | none => Except.error PyErr.keyError

/-- Join a word list with single spaces, as str.join does. -/
def joinSpace (ws : List String) : String := String.intercalate " " ws

/-- Source lines 331-332: the UNDEF branch. -/
def doUNDEF (d : DataDict) (words : List String) : Except PyErr DataDict := do
  let v ← pyFloat (← listGet words 1)
  pure { d with undef := some v }

/-- Source lines 333-336: the XDEF branch. -/
def doXDEF (d : DataDict) (words : List String) : Except PyErr DataDict := do
  let c ← pyIntParse (← listGet words 1)
  let s ← pyFloat (← listGet words 3)
  let inc ← pyFloat (← listGet words 4)
  pure { d with xdef_count := some c, xdef_start := some s, xdef_increment := some inc }

/-- Source lines 337-340: the YDEF branch. -/
def doYDEF (d : DataDict) (words : List String) : Except PyErr DataDict := do
  let c ← pyIntParse (← listGet words 1)
  let s ← pyFloat (← listGet words 3)
  let inc ← pyFloat (← listGet words 4)
  pure { d with ydef_count := some c, ydef_start := some s, ydef_increment := some inc }

/-- Source lines 341-342: the TDEF branch. -/
def doTDEF (d : DataDict) (words : List String) : Except PyErr DataDict := do
  let dt ← pyStrptimeDbY (← listGet words 3)
  pure { d with start_date := some dt }

/-- Source lines 343-347: the OPTIONS branch; anything other than the
literal big_endian in third position means little-endian. -/
def doOPTIONS (d : DataDict) (words : List String) : Except PyErr DataDict := do
  let w2 ← listGet words 2
  if w2 = "big_endian" then pure { d with little_endian := some false }
  else pure { d with little_endian := some true }

/-- Source lines 329-351: the per-line body of read_description.  The
line is whitespace-tokenised; words[0] is read (IndexError on a line
with no tokens) and dispatched over the recognised keywords; an
unrecognised first token leaves the dictionary unchanged. -/
def processLine (d : DataDict) (line : String) : Except PyErr DataDict := do
  let words := pyWords line
  let w0 ← listGet words 0
  if w0 = "UNDEF" then doUNDEF d words
  else if w0 = "XDEF" then doXDEF d words
  else if w0 = "YDEF" then doYDEF d words
  else if w0 = "TDEF" then doTDEF d words
  else if w0 = "OPTIONS" then doOPTIONS d words
  else if w0 = "cmorph" then
    pure { d with variable_description := some (joinSpace (words.drop 4)) }
  else if w0 = "TITLE" then
    pure { d with title := some (joinSpace (words.drop 1)) }
  else
    pure d

/-- Source lines 307-353: read_description iterates the file lines,
threading the dictionary through processLine, and returns whatever
dictionary was accumulated; the source performs no completeness check
on the result. -/
def read_description (lines : List String) : Except PyErr DataDict :=
  lines.foldlM processLine {}

/-- numpy np.zeros(n): a fresh zero array, ValueError on a negative
size. -/
def npZeros (n : Int) : Except PyErr (List ℚ) :=
  if n < 0 then Except.error PyErr.valueError
  else Except.ok (List.replicate n.toNat 0)

/-- numpy in-place addition a += b: element-wise when the lengths agree,
scalar broadcast when b has exactly one element, and a broadcast
ValueError otherwise (the in-place target cannot grow). -/
def npIAdd (a b : List ℚ) : Except PyErr (List ℚ) :=
  if a.length = b.length then Except.ok (List.zipWith (fun x y => x + y) a b)
  else
    match b with
    | [v] => Except.ok (a.map (fun x => x + v))
    | _ => Except.error PyErr.valueError

/-- Source lines 48-55, the daily grid reader inlined in the aggregator:
np.fromfile yields every four-byte element the file holds (modelled as
the file content list, with bswap the 32-bit byte swap applied when the
descriptor is not little-endian), and when the undef sentinel from the
descriptor is negative every element strictly below zero is overwritten
with zero. -/
def read_daily (bswap : ℚ → ℚ) (d : DataDict) (contents : List ℚ) :
    Except PyErr (List ℚ) := do
  let le ← dictGet d.little_endian
  let data := if le then contents else contents.map bswap
  let u ← dictGet d.undef
  if u < 0 then
    pure (data.map (fun x => if x < 0 then 0 else x))
  else
    pure data

/-- Source lines 38-58, the loop body of the monthly aggregator: slice the
file name for its year and month digits, parse both through int(),
skip files for other months, otherwise decode the file and add it into
the accumulator. -/
def monthly_step (bswap : ℚ → ℚ) (d : DataDict) (data_year data_month : Int)
    (summed : List ℚ) (file : String × List ℚ) : Except PyErr (List ℚ) := do
  let file_year ← pyIntParse (pySlice file.1 (-8) (-4))
  let file_month ← pyIntParse (pySlice file.1 (-4) (-2))
  if file_year ≠ data_year then pure summed
  else if file_month ≠ data_month then pure summed
  else do
    let data ← read_daily bswap d file.2
    npIAdd summed data

/-- Source lines 31-60, the monthly aggregator (source name has a leading
underscore): a zero accumulator of length xdef_count times ydef_count
receives every daily grid of the target year and month found in the
directory listing, modelled as a list of file name and content pairs. -/
def read_daily_cmorph_to_monthly_sum (bswap : ℚ → ℚ)
    (files : List (String × List ℚ)) (d : DataDict) (data_year data_month : Int) :
    Except PyErr (List ℚ) := do
  let xc ← dictGet d.xdef_count
  let yc ← dictGet d.ydef_count
  let summed ← npZeros (xc * yc)
  files.foldlM (monthly_step bswap d data_year data_month) summed

/-- Source line 289: the time index of a written month, counted from the
descriptor start year. -/
def time_index (start_year year month : Int) : Int :=
  ((year - start_year) * 12) + month - 1

/-- Source lines 199-256, the driver up to its first unavoidable failure.
Line 217 overwrites the descriptor_file parameter with the fixed name
data_descriptor.txt inside cmorph_dir (os.sep is the slash); when
download_files is set, line 219 stores the externally fetched descriptor
text at that path; line 222 parses it (open raises an IOError when the
path is absent); lines 236-239 read xdef_count, ydef_count and title
from the dictionary; line 253 evaluates data_desc start_date and then
calls compute_days with the keyword arguments initial_month and
units_start_year, which its signature does not declare, so Python
raises TypeError before entering the function; no month is ever
written. -/
def ingest_cmorph_to_netcdf (fs : String → Option (List String))
    (downloaded : List String) (cmorph_dir descriptor_file netcdf_file : String)
    (download_files remove_files : Bool) : Except PyErr Unit := do
  let descriptor_file := cmorph_dir ++ "/" ++ "data_descriptor.txt"
  let fs2 : String → Option (List String) :=
    if download_files then
      fun p => if p = descriptor_file then some downloaded else fs p
    else fs
  let text ← match fs2 descriptor_file with
             | some t => Except.ok t
             | none => Except.error PyErr.ioError
  let data_desc ← read_description text
  let xdef_count ← dictGet data_desc.xdef_count
  let ydef_count ← dictGet data_desc.ydef_count
  let t ← dictGet data_desc.title
  let sd ← dictGet data_desc.start_date
  Except.error PyErr.typeError

/-! Helper lemmas about the Except monad and shared concrete values. -/

/-- Bind on a successful Except computation. -/
theorem ok_bind {ε α β : Type} (x : α) (f : α → Except ε β) :
    (Except.ok x >>= f : Except ε β) = f x := rfl

/-- Bind on a failed Except computation. -/
theorem error_bind {ε α β : Type} (e : ε) (f : α → Except ε β) :
    (Except.error e >>= f : Except ε β) = Except.error e := rfl

/-- Pure in the Except monad is ok. -/
theorem pure_eq_ok {ε α : Type} (x : α) : (pure x : Except ε α) = Except.ok x := rfl

/-- The descriptor of the end-to-end scenario in the spec: a 2 by 2 grid,
undef sentinel -999.0, little-endian data, start date 1998-01-01. -/
def descC : DataDict :=
  { undef := some (-999), xdef_count := some 2, xdef_start := some 0,
    xdef_increment := some (1/4), ydef_count := some 2, ydef_start := some 0,
    ydef_increment := some (1/4), start_date := some ⟨1998, 1, 1⟩,
    little_endian := some true, variable_description := some "v", title := some "t" }

/-- Closed form of the daily reader when the descriptor carries both the
endianness flag and the undef sentinel. -/
theorem read_daily_eval (bswap : ℚ → ℚ) (d : DataDict) (xs : List ℚ) (le : Bool) (u : ℚ)
    (h1 : d.little_endian = some le) (h2 : d.undef = some u) :
    read_daily bswap d xs =
      Except.ok (if u < 0 then
          (if le then xs else xs.map bswap).map (fun x => if x < 0 then 0 else x)
        else (if le then xs else xs.map bswap)) := by
  simp only [read_daily, h1, h2, dictGet, ok_bind]
  split <;> rfl

/-- C1: the claim says that for every valid input the time-axis generator
returns a strictly increasing day-offset sequence starting at the day
count between the two January firsts.  The code instead raises TypeError
on every input that passes its year-order validation, because line 184
subtracts the int day attribute from a datetime.  Evaluated here at a
valid input: first data year 1998, final bound 2017, epoch year 1900. -/
theorem C1_compute_days_always_typeerror :
    compute_days 1998 2017 1900 = Except.error PyErr.typeError := by decide

/-- C5: the time index used for a written month equals
(year - start_year) * 12 + (month - 1); in particular index 14 for
(1999, 3) from start year 1998, and index 0 for (1998, 1). -/
theorem C5_time_index_formula :
    (∀ start_year year month : Int,
        time_index start_year year month = (year - start_year) * 12 + (month - 1)) ∧
    time_index 1998 1999 3 = 14 ∧ time_index 1998 1998 1 = 0 :=
  ⟨fun sy y m => by unfold time_index; ring, by decide, by decide⟩

/-- C8: an epoch year strictly later than the first data year makes
compute_days fail with ValueError (the range error of the spec taxonomy);
the check at line 179 runs before anything else and the function performs
no input or output at all. -/
theorem C8_epoch_after_first_year_value_error
    (year_initial year_final year_since : Int) (h : year_initial < year_since) :
    compute_days year_initial year_final year_since = Except.error PyErr.valueError := by
  unfold compute_days
  rw [if_pos h]

/-- Witness for C8 at the concrete input (1998, 2017, 2000). -/
theorem C8_witness :
    (1998 : Int) < 2000 ∧
    compute_days 1998 2017 2000 = Except.error PyErr.valueError :=
  ⟨by decide, C8_epoch_after_first_year_value_error 1998 2017 2000 (by decide)⟩

/-- C9: the end-to-end scenario of the spec: a 2 by 2 grid with undef
-999.0, two January 1998 daily files holding [1,1,1,1] and [-999,1,1,1],
aggregate [1,2,2,2]. -/
theorem C9_end_to_end_scenario :
    read_daily_cmorph_to_monthly_sum id
      [("19980101", [1, 1, 1, 1]), ("19980102", [-999, 1, 1, 1])] descC 1998 1 =
    Except.ok [1, 2, 2, 2] := by
  have h1 : pyIntParse (pySlice "19980101" (-8) (-4)) = Except.ok 1998 := by decide
  have h2 : pyIntParse (pySlice "19980101" (-4) (-2)) = Except.ok 1 := by decide
  have h3 : pyIntParse (pySlice "19980102" (-8) (-4)) = Except.ok 1998 := by decide
  have h4 : pyIntParse (pySlice "19980102" (-4) (-2)) = Except.ok 1 := by decide
  norm_num [read_daily_cmorph_to_monthly_sum, monthly_step, read_daily, descC, dictGet,
    npZeros, npIAdd, List.foldlM, h1, h2, h3, h4, ok_bind, error_bind, pure_eq_ok,
    List.zipWith, List.replicate]

/-- C2 counterexample: with undef -999 and little-endian data, the element
-1 is not strictly less than the undef sentinel, yet the reader replaces
it with zero, refuting the claim that exactly the elements strictly below
undef are replaced. -/
theorem C2_counterexample :
    descC.undef = some (-999 : ℚ) ∧ descC.little_endian = some true ∧
    read_daily id descC [(-1 : ℚ)] = Except.ok [0] ∧ ¬ ((-1 : ℚ) < -999) :=
  ⟨rfl, rfl, by decide, by decide⟩

/-- C2 (amended): after byte-order correction, exactly the elements
strictly less than zero are replaced with zero when the undef sentinel is
negative, and no element is replaced when undef is non-negative; stated
element-wise over the corrected sequence. -/
theorem C2_daily_reader_zero_policy (bswap : ℚ → ℚ) (d : DataDict) (xs : List ℚ)
    (le : Bool) (u : ℚ) (h1 : d.little_endian = some le) (h2 : d.undef = some u) :
    ∃ out, read_daily bswap d xs = Except.ok out ∧
      out.length = xs.length ∧
      ∀ i : Nat, out.get? i =
        ((if le then xs else xs.map bswap).get? i).map
          (fun v => if u < 0 ∧ v < 0 then 0 else v) := by
  refine ⟨_, read_daily_eval bswap d xs le u h1 h2, ?_, ?_⟩
  · by_cases hu : u < 0 <;> cases le <;> simp [hu]
  · intro i
    by_cases hu : u < 0
    · simp only [if_pos hu, List.get?_map]
      cases (if le then xs else xs.map bswap).get? i <;> simp [hu]
    · simp only [if_neg hu]
      cases (if le then xs else xs.map bswap).get? i <;> simp [hu]

/-- Witness for C2 at the concrete descriptor descC and grid [-1, 5]. -/
theorem C2_witness :
    descC.little_endian = some true ∧ descC.undef = some (-999 : ℚ) ∧
    (∃ out, read_daily id descC [(-1 : ℚ), 5] = Except.ok out ∧
      out.length = ([(-1 : ℚ), 5] : List ℚ).length ∧
      ∀ i : Nat, out.get? i =
        ((if true then [(-1 : ℚ), 5] else ([(-1 : ℚ), 5] : List ℚ).map id).get? i).map
          (fun v => if (-999 : ℚ) < 0 ∧ v < 0 then 0 else v)) :=
  ⟨rfl, rfl, C2_daily_reader_zero_policy id descC [(-1 : ℚ), 5] true (-999) rfl rfl⟩

/-- C4 counterexample: a file holding three elements against a 2 by 2 grid
is decoded to a three-element array with no error of any kind, refuting
the claim that the reader fails with an input-output error instead of
returning a shorter array. -/
theorem C4_counterexample :
    descC.xdef_count = some 2 ∧ descC.ydef_count = some 2 ∧
    read_daily id descC [(1 : ℚ), 2, 3] = Except.ok [1, 2, 3] ∧
    ([(1 : ℚ), 2, 3] : List ℚ).length < 2 * 2 :=
  ⟨rfl, rfl, by decide, by decide⟩

/-- In-place numpy addition fails with the broadcast ValueError when the
lengths differ and the right operand is not a single element. -/
theorem npIAdd_error (a b : List ℚ) (h1 : a.length ≠ b.length) (h2 : b.length ≠ 1) :
    npIAdd a b = Except.error PyErr.valueError := by
  unfold npIAdd
  rw [if_neg h1]
  cases b with
  | nil => rfl
  | cons v t =>
    cases t with
    | nil => exact absurd (List.length_singleton v) h2
    | cons w t2 => rfl

/-- C4 (amended): the reader returns the short array silently; the length
mismatch is detected only when the monthly accumulation broadcasts, which
raises ValueError (not an input-output error), provided the file does not
hold exactly one element. -/
theorem C4_short_file_broadcast_error (bswap : ℚ → ℚ) (d : DataDict)
    (name : String) (contents : List ℚ) (y m xc yc : Int) (le : Bool) (u : ℚ)
    (hx : d.xdef_count = some xc) (hy : d.ydef_count = some yc)
    (hle : d.little_endian = some le) (hu : d.undef = some u)
    (hpos : 0 ≤ xc * yc)
    (hfy : pyIntParse (pySlice name (-8) (-4)) = Except.ok y)
    (hfm : pyIntParse (pySlice name (-4) (-2)) = Except.ok m)
    (hlen : contents.length ≠ (xc * yc).toNat)
    (hone : contents.length ≠ 1) :
    read_daily_cmorph_to_monthly_sum bswap [(name, contents)] d y m =
      Except.error PyErr.valueError := by
  have hr := read_daily_eval bswap d contents le u hle hu
  have hrl : (if u < 0 then
        (if le then contents else contents.map bswap).map (fun x => if x < 0 then 0 else x)
      else (if le then contents else contents.map bswap)).length = contents.length := by
    by_cases hu2 : u < 0 <;> cases le <;> simp [hu2]
  simp only [read_daily_cmorph_to_monthly_sum, hx, hy, dictGet, ok_bind, npZeros]
  rw [if_neg (not_lt.mpr hpos)]
  simp only [ok_bind, List.foldlM, monthly_step, hfy, hfm, ok_bind, hr]
  simp only [ne_eq, not_true_eq_false, if_false, ite_false, if_neg (by simp : ¬ (y ≠ y)),
    if_neg (by simp : ¬ (m ≠ m)), ok_bind]
  have ha : (List.replicate (xc * yc).toNat (0 : ℚ)).length = (xc * yc).toNat := by simp
  rw [npIAdd_error _ _ (by rw [ha, hrl]; exact fun hc => hlen hc.symm) (by rw [hrl]; exact hone)]
  rfl

/-- Witness for C4: a three-element file against the 2 by 2 descriptor
makes the aggregation fail with the broadcast ValueError. -/
theorem C4_witness :
    descC.xdef_count = some 2 ∧ descC.ydef_count = some 2 ∧
    read_daily_cmorph_to_monthly_sum id [("19980101", [(1 : ℚ), 2, 3])] descC 1998 1 =
      Except.error PyErr.valueError :=
  ⟨rfl, rfl,
    C4_short_file_broadcast_error id descC "19980101" [(1 : ℚ), 2, 3] 1998 1 2 2 true (-999)
      rfl rfl rfl rfl (by decide) (by decide) (by decide) (by decide) (by decide)⟩

/-- Keyword tokens the descriptor parser dispatches on, in source order. -/
def keywords : List String :=
  ["UNDEF", "XDEF", "YDEF", "TDEF", "OPTIONS", "cmorph", "TITLE"]

/-- A line whose first token is none of the recognised keywords leaves the
dictionary unchanged and raises nothing. -/
theorem processLine_unrecognized (d : DataDict) (line : String) (w0 : String)
    (ws : List String) (hw : pyWords line = w0 :: ws) (h : w0 ∉ keywords) :
    processLine d line = Except.ok d := by
  simp only [keywords, List.mem_cons, List.not_mem_nil, or_false, not_or] at h
  obtain ⟨h1, h2, h3, h4, h5, h6, h7⟩ := h
  simp only [processLine, hw, listGet, List.get?_cons_zero, ok_bind]
  rw [if_neg h1, if_neg h2, if_neg h3, if_neg h4, if_neg h5, if_neg h6, if_neg h7]
  rfl

/-- Shape of a successful UNDEF branch: only the undef field changes. -/
theorem doUNDEF_ok (d : DataDict) (words : List String) (d' : DataDict)
    (h : doUNDEF d words = Except.ok d') : ∃ v, d' = { d with undef := some v } := by
  unfold doUNDEF at h
  cases h1 : listGet words 1 with
  | error e => rw [h1, error_bind] at h; exact absurd h (by simp)
  | ok s =>
    rw [h1, ok_bind] at h
    cases h2 : pyFloat s with
    | error e => rw [h2, error_bind] at h; exact absurd h (by simp)
    | ok v =>
      rw [h2, ok_bind] at h
      exact ⟨v, (Except.ok.inj h).symm⟩

/-- Shape of a successful XDEF branch: only the three xdef fields
change. -/
theorem doXDEF_ok (d : DataDict) (words : List String) (d' : DataDict)
    (h : doXDEF d words = Except.ok d') :
    ∃ c s inc, d' = { d with xdef_count := some c, xdef_start := some s,
                             xdef_increment := some inc } := by
  unfold doXDEF at h
  cases h1 : listGet words 1 with
  | error e => rw [h1, error_bind] at h; exact absurd h (by simp)
  | ok t1 =>
    rw [h1, ok_bind] at h
    cases h2 : pyIntParse t1 with
    | error e => rw [h2, error_bind] at h; exact absurd h (by simp)
    | ok c =>
      rw [h2, ok_bind] at h
      cases h3 : listGet words 3 with
      | error e => rw [h3, error_bind] at h; exact absurd h (by simp)
      | ok t3 =>
        rw [h3, ok_bind] at h
        cases h4 : pyFloat t3 with
        | error e => rw [h4, error_bind] at h; exact absurd h (by simp)
        | ok s =>
          rw [h4, ok_bind] at h
          cases h5 : listGet words 4 with
          | error e => rw [h5, error_bind] at h; exact absurd h (by simp)
          | ok t4 =>
            rw [h5, ok_bind] at h
            cases h6 : pyFloat t4 with
            | error e => rw [h6, error_bind] at h; exact absurd h (by simp)
            | ok inc =>
              rw [h6, ok_bind] at h
              exact ⟨c, s, inc, (Except.ok.inj h).symm⟩

/-- Shape of a successful YDEF branch: only the three ydef fields
change. -/
theorem doYDEF_ok (d : DataDict) (words : List String) (d' : DataDict)
    (h : doYDEF d words = Except.ok d') :
    ∃ c s inc, d' = { d with ydef_count := some c, ydef_start := some s,
                             ydef_increment := some inc } := by
  unfold doYDEF at h
  cases h1 : listGet words 1 with
  | error e => rw [h1, error_bind] at h; exact absurd h (by simp)
  | ok t1 =>
    rw [h1, ok_bind] at h
    cases h2 : pyIntParse t1 with
    | error e => rw [h2, error_bind] at h; exact absurd h (by simp)
    | ok c =>
      rw [h2, ok_bind] at h
      cases h3 : listGet words 3 with
      | error e => rw [h3, error_bind] at h; exact absurd h (by simp)
      | ok t3 =>
        rw [h3, ok_bind] at h
        cases h4 : pyFloat t3 with
        | error e => rw [h4, error_bind] at h; exact absurd h (by simp)
        | ok s =>
          rw [h4, ok_bind] at h
          cases h5 : listGet words 4 with
          | error e => rw [h5, error_bind] at h; exact absurd h (by simp)
          | ok t4 =>
            rw [h5, ok_bind] at h
            cases h6 : pyFloat t4 with
            | error e => rw [h6, error_bind] at h; exact absurd h (by simp)
            | ok inc =>
              rw [h6, ok_bind] at h
              exact ⟨c, s, inc, (Except.ok.inj h).symm⟩

/-- Shape of a successful TDEF branch: only start_date changes. -/
theorem doTDEF_ok (d : DataDict) (words : List String) (d' : DataDict)
    (h : doTDEF d words = Except.ok d') : ∃ t, d' = { d with start_date := some t } := by
  unfold doTDEF at h
  cases h1 : listGet words 3 with
  | error e => rw [h1, error_bind] at h; exact absurd h (by simp)
  | ok s =>
    rw [h1, ok_bind] at h
    cases h2 : pyStrptimeDbY s with
    | error e => rw [h2, error_bind] at h; exact absurd h (by simp)
    | ok t =>
      rw [h2, ok_bind] at h
      exact ⟨t, (Except.ok.inj h).symm⟩

/-- Shape of a successful OPTIONS branch: only little_endian changes. -/
theorem doOPTIONS_ok (d : DataDict) (words : List String) (d' : DataDict)
    (h : doOPTIONS d words = Except.ok d') :
    ∃ b, d' = { d with little_endian := some b } := by
  unfold doOPTIONS at h
  cases h1 : listGet words 2 with
  | error e => rw [h1, error_bind] at h; exact absurd h (by simp)
  | ok w2 =>
    rw [h1, ok_bind] at h
    by_cases h2 : w2 = "big_endian"
    · rw [if_pos h2] at h
      exact ⟨false, (Except.ok.inj h).symm⟩
    · rw [if_neg h2] at h
      exact ⟨true, (Except.ok.inj h).symm⟩

/-- Each successful parse of a line only updates the fields of its own
keyword: any other field survives unchanged. -/
theorem processLine_shape (d : DataDict) (w0 : String) (ws : List String) (line : String)
    (hw : pyWords line = w0 :: ws) (d' : DataDict)
    (h : processLine d line = Except.ok d') :
    (d'.undef = d.undef ∨ w0 = "UNDEF") ∧
    (d'.xdef_count = d.xdef_count ∨ w0 = "XDEF") ∧
    (d'.ydef_count = d.ydef_count ∨ w0 = "YDEF") ∧
    (d'.start_date = d.start_date ∨ w0 = "TDEF") := by
  simp only [processLine, hw, listGet, List.get?_cons_zero, ok_bind] at h
  by_cases e1 : w0 = "UNDEF"
  · rw [if_pos e1] at h
    obtain ⟨v, rfl⟩ := doUNDEF_ok _ _ _ h
    exact ⟨Or.inr e1, Or.inl rfl, Or.inl rfl, Or.inl rfl⟩
  · rw [if_neg e1] at h
    by_cases e2 : w0 = "XDEF"
    · rw [if_pos e2] at h
      obtain ⟨c, s, inc, rfl⟩ := doXDEF_ok _ _ _ h
      exact ⟨Or.inl rfl, Or.inr e2, Or.inl rfl, Or.inl rfl⟩
    · rw [if_neg e2] at h
      by_cases e3 : w0 = "YDEF"
      · rw [if_pos e3] at h
        obtain ⟨c, s, inc, rfl⟩ := doYDEF_ok _ _ _ h
        exact ⟨Or.inl rfl, Or.inl rfl, Or.inr e3, Or.inl rfl⟩
      · rw [if_neg e3] at h
        by_cases e4 : w0 = "TDEF"
        · rw [if_pos e4] at h
          obtain ⟨t, rfl⟩ := doTDEF_ok _ _ _ h
          exact ⟨Or.inl rfl, Or.inl rfl, Or.inl rfl, Or.inr e4⟩
        · rw [if_neg e4] at h
          by_cases e5 : w0 = "OPTIONS"
          · rw [if_pos e5] at h
            obtain ⟨b, rfl⟩ := doOPTIONS_ok _ _ _ h
            exact ⟨Or.inl rfl, Or.inl rfl, Or.inl rfl, Or.inl rfl⟩
          · rw [if_neg e5] at h
            by_cases e6 : w0 = "cmorph"
            · rw [if_pos e6] at h
              rw [(Except.ok.inj h).symm]
              exact ⟨Or.inl rfl, Or.inl rfl, Or.inl rfl, Or.inl rfl⟩
            · rw [if_neg e6] at h
              by_cases e7 : w0 = "TITLE"
              · rw [if_pos e7] at h
                rw [(Except.ok.inj h).symm]
                exact ⟨Or.inl rfl, Or.inl rfl, Or.inl rfl, Or.inl rfl⟩
              · rw [if_neg e7] at h
                rw [(Except.ok.inj h).symm]
                exact ⟨Or.inl rfl, Or.inl rfl, Or.inl rfl, Or.inl rfl⟩

/-- Folding the parser over lines preserves any dictionary field whose
keyword never leads a line. -/
theorem foldl_preserve_undef (lines : List String) :
    ∀ d0 d : DataDict, lines.foldlM processLine d0 = Except.ok d →
      (∀ l ∈ lines, (pyWords l).head? ≠ some "UNDEF") → d.undef = d0.undef := by
  induction lines with
  | nil => intro d0 d h _; rw [← Except.ok.inj h]
  | cons l ls ih =>
    intro d0 d h hall
    rw [List.foldlM_cons] at h
    cases hp : processLine d0 l with
    | error e => rw [hp, error_bind] at h; exact absurd h (by simp)
    | ok d1 =>
      rw [hp, ok_bind] at h
      have hrest := ih d1 d h (fun x hx => hall x (List.mem_cons_of_mem l hx))
      cases hw : pyWords l with
      | nil => simp [processLine, hw, listGet, error_bind] at hp
      | cons w0 ws =>
        have hne : w0 ≠ "UNDEF" := by
          intro e
          exact hall l (List.mem_cons_self l ls) (by rw [hw, e]; rfl)
        have := (processLine_shape d0 w0 ws l hw d1 hp).1
        rw [hrest]
        rcases this with h1 | h1
        · exact h1
        · exact absurd h1 hne

/-- Same preservation for the xdef_count field. -/
theorem foldl_preserve_xdef (lines : List String) :
    ∀ d0 d : DataDict, lines.foldlM processLine d0 = Except.ok d →
      (∀ l ∈ lines, (pyWords l).head? ≠ some "XDEF") → d.xdef_count = d0.xdef_count := by
  induction lines with
  | nil => intro d0 d h _; rw [← Except.ok.inj h]
  | cons l ls ih =>
    intro d0 d h hall
    rw [List.foldlM_cons] at h
    cases hp : processLine d0 l with
    | error e => rw [hp, error_bind] at h; exact absurd h (by simp)
    | ok d1 =>
      rw [hp, ok_bind] at h
      have hrest := ih d1 d h (fun x hx => hall x (List.mem_cons_of_mem l hx))
      cases hw : pyWords l with
      | nil => simp [processLine, hw, listGet, error_bind] at hp
      | cons w0 ws =>
        have hne : w0 ≠ "XDEF" := by
          intro e
          exact hall l (List.mem_cons_self l ls) (by rw [hw, e]; rfl)
        have := (processLine_shape d0 w0 ws l hw d1 hp).2.1
        rw [hrest]
        rcases this with h1 | h1
        · exact h1
        · exact absurd h1 hne

/-- Same preservation for the ydef_count field. -/
theorem foldl_preserve_ydef (lines : List String) :
    ∀ d0 d : DataDict, lines.foldlM processLine d0 = Except.ok d →
      (∀ l ∈ lines, (pyWords l).head? ≠ some "YDEF") → d.ydef_count = d0.ydef_count := by
  induction lines with
  | nil => intro d0 d h _; rw [← Except.ok.inj h]
  | cons l ls ih =>
    intro d0 d h hall
    rw [List.foldlM_cons] at h
    cases hp : processLine d0 l with
    | error e => rw [hp, error_bind] at h; exact absurd h (by simp)
    | ok d1 =>
      rw [hp, ok_bind] at h
      have hrest := ih d1 d h (fun x hx => hall x (List.mem_cons_of_mem l hx))
      cases hw : pyWords l with
      | nil => simp [processLine, hw, listGet, error_bind] at hp
      | cons w0 ws =>
        have hne : w0 ≠ "YDEF" := by
          intro e
          exact hall l (List.mem_cons_self l ls) (by rw [hw, e]; rfl)
        have := (processLine_shape d0 w0 ws l hw d1 hp).2.2.1
        rw [hrest]
        rcases this with h1 | h1
        · exact h1
        · exact absurd h1 hne

/-- Same preservation for the start_date field. -/
theorem foldl_preserve_tdef (lines : List String) :
    ∀ d0 d : DataDict, lines.foldlM processLine d0 = Except.ok d →
      (∀ l ∈ lines, (pyWords l).head? ≠ some "TDEF") → d.start_date = d0.start_date := by
  induction lines with
  | nil => intro d0 d h _; rw [← Except.ok.inj h]
  | cons l ls ih =>
    intro d0 d h hall
    rw [List.foldlM_cons] at h
    cases hp : processLine d0 l with
    | error e => rw [hp, error_bind] at h; exact absurd h (by simp)
    | ok d1 =>
      rw [hp, ok_bind] at h
      have hrest := ih d1 d h (fun x hx => hall x (List.mem_cons_of_mem l hx))
      cases hw : pyWords l with
      | nil => simp [processLine, hw, listGet, error_bind] at hp
      | cons w0 ws =>
        have hne : w0 ≠ "TDEF" := by
          intro e
          exact hall l (List.mem_cons_self l ls) (by rw [hw, e]; rfl)
        have := (processLine_shape d0 w0 ws l hw d1 hp).2.2.2
        rw [hrest]
        rcases this with h1 | h1
        · exact h1
        · exact absurd h1 hne

/-- C3 counterexample: a descriptor holding only a TITLE line, hence no
UNDEF, XDEF, YDEF or TDEF keyword, parses successfully into a dictionary
with those fields absent; the parser does not fail. -/
theorem C3_counterexample :
    read_description ["TITLE hello"] = Except.ok { title := some "hello" } := by decide

/-- C3 (amended): when one of the keywords UNDEF, XDEF, YDEF or TDEF never
leads a line and parsing succeeds, the returned dictionary simply lacks
the corresponding field; absence of a required keyword is not an error
in this parser. -/
theorem C3_missing_keyword_field_absent (lines : List String) (d : DataDict)
    (h : read_description lines = Except.ok d) :
    ((∀ l ∈ lines, (pyWords l).head? ≠ some "UNDEF") → d.undef = none) ∧
    ((∀ l ∈ lines, (pyWords l).head? ≠ some "XDEF") → d.xdef_count = none) ∧
    ((∀ l ∈ lines, (pyWords l).head? ≠ some "YDEF") → d.ydef_count = none) ∧
    ((∀ l ∈ lines, (pyWords l).head? ≠ some "TDEF") → d.start_date = none) :=
  ⟨fun hall => foldl_preserve_undef lines {} d h hall,
   fun hall => foldl_preserve_xdef lines {} d h hall,
   fun hall => foldl_preserve_ydef lines {} d h hall,
   fun hall => foldl_preserve_tdef lines {} d h hall⟩

/-- Witness for C3 on a TITLE-only descriptor. -/
theorem C3_witness :
    read_description ["TITLE hello"] = Except.ok { title := some "hello" } ∧
    ({ title := some "hello" } : DataDict).undef = none :=
  ⟨by decide,
   (C3_missing_keyword_field_absent ["TITLE hello"] { title := some "hello" }
      (by decide)).1 (by decide)⟩

/-- A line that the parser ignores can be spliced in or out anywhere
without changing the fold. -/
theorem foldlM_skip_line (line : String)
    (h : ∀ d : DataDict, processLine d line = Except.ok d) :
    ∀ (pre post : List String) (d0 : DataDict),
      (pre ++ line :: post).foldlM processLine d0 =
      (pre ++ post).foldlM processLine d0 := by
  intro pre
  induction pre with
  | nil =>
    intro post d0
    simp only [List.nil_append, List.foldlM_cons, h d0, ok_bind]
  | cons p ps ih =>
    intro post d0
    simp only [List.cons_append, List.foldlM_cons]
    cases hp : processLine d0 p with
    | error e => rw [error_bind, error_bind]
    | ok d1 => rw [ok_bind, ok_bind]; exact ih post d1

/-- C6 counterexample: a blank line is not ignored: words[0] on an empty
token list raises IndexError, so the parse of a text with a blank line
fails and differs from the parse with the line absent. -/
theorem C6_counterexample :
    read_description ["TITLE x", ""] = Except.error PyErr.indexError ∧
    read_description ["TITLE x"] = Except.ok { title := some "x" } :=
  ⟨by decide, by decide⟩

/-- C6 (amended): every line holding at least one token whose first token
is none of the recognised keywords is ignored: the parse result is the
same as if the line were absent; a line with no tokens instead raises
IndexError. -/
theorem C6_unrecognized_line_ignored (pre post : List String) (line : String)
    (w0 : String) (ws : List String) (hw : pyWords line = w0 :: ws)
    (h : w0 ∉ keywords) :
    read_description (pre ++ line :: post) = read_description (pre ++ post) := by
  unfold read_description
  exact foldlM_skip_line line
    (fun d => processLine_unrecognized d line w0 ws hw h) pre post {}

/-- Witness for C6: a DSET line (ignored by the source) spliced between a
TITLE line and the end changes nothing. -/
theorem C6_witness :
    pyWords "DSET somepath" = ["DSET", "somepath"] ∧ "DSET" ∉ keywords ∧
    read_description (["TITLE t"] ++ "DSET somepath" :: []) =
      read_description (["TITLE t"] ++ []) :=
  ⟨by decide, by decide,
   C6_unrecognized_line_ignored ["TITLE t"] [] "DSET somepath" "DSET" ["somepath"]
     (by decide) (by decide)⟩

/-- A file whose parsed year or month differs from the target is skipped
by the aggregation step. -/
theorem monthly_step_skip (bswap : ℚ → ℚ) (d : DataDict) (y m : Int)
    (s : List ℚ) (f : String × List ℚ) (fy fm : Int)
    (h1 : pyIntParse (pySlice f.1 (-8) (-4)) = Except.ok fy)
    (h2 : pyIntParse (pySlice f.1 (-4) (-2)) = Except.ok fm)
    (h : fy ≠ y ∨ fm ≠ m) :
    monthly_step bswap d y m s f = Except.ok s := by
  simp only [monthly_step, h1, h2, ok_bind]
  by_cases e : fy = y
  · rcases h with h | h
    · exact absurd e h
    · rw [if_neg (not_not_intro e), if_pos h]
      rfl
  · rw [if_pos e]
    rfl

/-- Folding the aggregation step over files that are all skipped returns
the accumulator unchanged. -/
theorem monthly_fold_const (bswap : ℚ → ℚ) (d : DataDict) (y m : Int)
    (files : List (String × List ℚ))
    (h : ∀ f ∈ files, ∀ s, monthly_step bswap d y m s f = Except.ok s) :
    ∀ s0, files.foldlM (monthly_step bswap d y m) s0 = Except.ok s0 := by
  induction files with
  | nil => intro s0; rfl
  | cons f fl ih =>
    intro s0
    rw [List.foldlM_cons, h f (List.mem_cons_self f fl) s0, ok_bind]
    exact ih (fun g hg s => h g (List.mem_cons_of_mem f hg) s) s0

/-- C7 counterexample: a directory entry named ab matches no year, yet the
aggregator raises ValueError — int() on the empty year slice — instead of
returning the all-zero array the claim promises for a zero-match month. -/
theorem C7_counterexample :
    pySlice "ab" (-8) (-4) ≠ "1998" ∧ pySlice "ab" (-4) (-2) ≠ "01" ∧
    read_daily_cmorph_to_monthly_sum id [("ab", [])] descC 1998 1 =
      Except.error PyErr.valueError :=
  ⟨by decide, by decide, by decide⟩

/-- C7 (amended): selection compares the slices [-8:-4] and [-4:-2] of the
file name, parsed through int(), with the target year and month; when
every file name parses and none matches, the result is the all-zero
array of length xdef_count times ydef_count with no error; a file name
whose slices do not parse as integers raises ValueError instead. -/
theorem C7_no_match_zero_array (bswap : ℚ → ℚ) (files : List (String × List ℚ))
    (d : DataDict) (y m xc yc : Int)
    (hx : d.xdef_count = some xc) (hy : d.ydef_count = some yc) (hpos : 0 ≤ xc * yc)
    (hmatch : ∀ f ∈ files, ∃ fy fm,
        pyIntParse (pySlice f.1 (-8) (-4)) = Except.ok fy ∧
        pyIntParse (pySlice f.1 (-4) (-2)) = Except.ok fm ∧ (fy ≠ y ∨ fm ≠ m)) :
    read_daily_cmorph_to_monthly_sum bswap files d y m =
      Except.ok (List.replicate (xc * yc).toNat 0) := by
  simp only [read_daily_cmorph_to_monthly_sum, hx, hy, dictGet, ok_bind, npZeros]
  rw [if_neg (not_lt.mpr hpos), ok_bind]
  exact monthly_fold_const bswap d y m files
    (fun f hf s => by
      obtain ⟨fy, fm, h1, h2, h3⟩ := hmatch f hf
      exact monthly_step_skip bswap d y m s f fy fm h1 h2 h3) _

/-- Witness for C7: one 1997 file against target January 1998 yields the
all-zero 2 by 2 array. -/
theorem C7_witness :
    read_daily_cmorph_to_monthly_sum id [("19970101", [(5 : ℚ)])] descC 1998 1 =
      Except.ok (List.replicate ((2 * 2 : Int)).toNat 0) :=
  C7_no_match_zero_array id [("19970101", [(5 : ℚ)])] descC 1998 1 2 2 rfl rfl
    (by decide)
    (by
      intro f hf
      rw [List.mem_singleton.mp hf]
      exact ⟨1997, 1, by decide, by decide, Or.inl (by decide)⟩)

/-- C10: calls to the driver that differ only in the descriptor_file
argument behave identically, because line 217 overwrites the parameter
before first use; moreover the descriptor is read only from the file
data_descriptor.txt inside cmorph_dir, so two filesystems agreeing on
that single path give identical runs. -/
theorem C10_descriptor_param_ignored :
    (∀ (fs : String → Option (List String)) (downloaded : List String)
        (dir f1 f2 nc : String) (df rf : Bool),
        ingest_cmorph_to_netcdf fs downloaded dir f1 nc df rf =
        ingest_cmorph_to_netcdf fs downloaded dir f2 nc df rf) ∧
    (∀ (fs gs : String → Option (List String)) (downloaded : List String)
        (dir f1 f2 nc : String) (df rf : Bool),
        fs (dir ++ "/" ++ "data_descriptor.txt") =
          gs (dir ++ "/" ++ "data_descriptor.txt") →
        ingest_cmorph_to_netcdf fs downloaded dir f1 nc df rf =
        ingest_cmorph_to_netcdf gs downloaded dir f2 nc df rf) := by
  constructor
  · intro fs downloaded dir f1 f2 nc df rf
    rfl
  · intro fs gs downloaded dir f1 f2 nc df rf h
    unfold ingest_cmorph_to_netcdf
    cases df <;> simp [h]

/-- A filesystem holding only the fixed descriptor path. -/
def fsA : String → Option (List String) := fun p =>
  if p = "d" ++ "/" ++ "data_descriptor.txt" then some ["TITLE t"] else none

/-- A filesystem that agrees with fsA on the fixed descriptor path but
differs everywhere else. -/
def fsB : String → Option (List String) := fun p =>
  if p = "d" ++ "/" ++ "data_descriptor.txt" then some ["TITLE t"] else some ["TITLE u"]

/-- Witness for C10 at two concrete filesystems and two descriptor_file
arguments. -/
theorem C10_witness :
    fsA ("d" ++ "/" ++ "data_descriptor.txt") = fsB ("d" ++ "/" ++ "data_descriptor.txt") ∧
    ingest_cmorph_to_netcdf fsA [] "d" "a.ctl" "o.nc" false false =
      ingest_cmorph_to_netcdf fsB [] "d" "b.ctl" "o.nc" false false :=
  ⟨by decide,
   C10_descriptor_param_ignored.2 fsA fsB [] "d" "a.ctl" "b.ctl" "o.nc" false false
     (by decide)⟩
